import Mathlib

/-!
Verification of the portfolio backend (Flask REST façade in
`src/portfolio-backend/app.py`) against its natural-language specification.

The HTTP layer is shallowly embedded: each Flask handler becomes a Lean
function from the request data it reads (headers, JSON body, query string,
form fields) and the current store to a `Response` and the next store.
The external Supabase tables `projetos`, `certificados` and `visitas` are
modelled as lists of rows held in a `Store`; every Supabase call the code
makes (`select`, `insert`, `update`, `delete`, each optionally filtered by
`.eq`) is translated to the corresponding list operation.
-/

/-- A JSON scalar appearing in a response object built by `jsonify`. -/
inductive JVal where
  | str (s : String)
  | num (n : Nat)
  | strList (l : List String)
deriving DecidableEq, Repr

/-- A row of the `projetos` / `certificados` tables: the storage-assigned
numeric `id` plus the pass-through JSON document (an association list of
string fields, as the handlers only ever copy fields verbatim). -/
structure DBRow where
  id : Nat
  fields : List (String × String)
deriving DecidableEq, Repr

/-- A row of the `visitas` table: storage-assigned `id` and the counter. -/
structure VisitRow where
  id : Nat
  total : Nat
deriving DecidableEq, Repr

/-- The body of an HTTP response produced by the handlers. -/
inductive RespBody where
  /-- Result of `jsonify` on a dict of scalars, e.g. `{"error": "..."}`, `{"total": n}`. -/
  | obj (fields : List (String × JVal))
  /-- Result of `jsonify` on a list of table rows (e.g. `response.data`). -/
  | rows (l : List DBRow)
  /-- Result of `jsonify` on a single table row (e.g. `response.data[0]`). -/
  | row (r : DBRow)
  /-- Result of `render_template` on a template, with the optional `error` argument. -/
  | page (template : String) (error : Option String)
  /-- Result of `redirect(url_for(target))`. -/
  | redirect (target : String)
deriving DecidableEq, Repr

/-- An HTTP response: status code and body. -/
structure Response where
  status : Nat
  body : RespBody
deriving DecidableEq, Repr

/-- The state of the external Supabase database. -/
structure Store where
  projetos : List DBRow
  certificados : List DBRow
  visitas : List VisitRow
deriving DecidableEq, Repr

/-- The characters Python's `str.split()` (no argument) splits on. -/
def isPyWs (c : Char) : Bool :=
  c == ' ' || c == '\t' || c == '\n' || c == '\r' || c == '\x0b' || c == '\x0c'

/-- Accumulator-passing worker for `pySplit`: `acc` holds the characters
of the token currently being read, in reverse. -/
def pySplitAux : List Char → List Char → List String
  | [], [] => []
  | [], acc => [String.mk acc.reverse]
  | c :: cs, acc =>
    if isPyWs c then
      match acc with
      | [] => pySplitAux cs []
      | _ => String.mk acc.reverse :: pySplitAux cs []
    else
      pySplitAux cs (c :: acc)

/-- Python `str.split()` with no argument: split on runs of whitespace,
discarding empty tokens. -/
def pySplit (s : String) : List String :=
  pySplitAux s.data []

/-- Python `field in data` on a JSON-object payload (dict key membership). -/
def hasField (data : List (String × String)) (field : String) : Bool :=
  data.any fun p => p.1 == field

/-- Python `data[k] = v` on a dict, as an association-list update: replace the
binding of `k` when present, otherwise append it. -/
def setField (data : List (String × String)) (k v : String) :
    List (String × String) :=
  if data.any (fun p => p.1 == k) then
    data.map fun p => if p.1 == k then (k, v) else p
  else
    data ++ [(k, v)]

/-- First value bound to `k` in a row's document, if any. -/
def getField (r : DBRow) (k : String) : Option String :=
  (r.fields.find? fun p => p.1 == k).map Prod.snd

/-- The JSON body of a request, as the handlers consume it.

`badJson` models a `request.get_json()` call that raises, returns `None`,
or returns a non-container value: in all three cases the first use of the
payload inside the handler's `try` block (`field in data` or
`data["updated_at"] = ...`) raises, and the `except Exception` branch
answers 500. `jsonObj fields` is a JSON object payload. -/
inductive ReqBody where
  | badJson
  | jsonObj (fields : List (String × String))
deriving DecidableEq, Repr

/-- Body of `jsonify` applied to an error dict. -/
def errBody (msg : String) : RespBody :=
  .obj [("error", .str msg)]

/-- Guard `require_auth` (app.py:36-58): reads the `Authorization` header and
either rejects the request (`some response`, always a 401) or lets the
wrapped handler run (`none`).  Flask's `headers.get` yields `none` for an
absent header; Python's `if not auth_header` also treats the empty string
as missing. -/
def require_auth (adminPassword : String) (authHeader : Option String) :
    Option Response :=
  match authHeader with
  | none => some ⟨401, errBody "Missing Authorization header"⟩
  | some h =>
    if h = "" then
      some ⟨401, errBody "Missing Authorization header"⟩
    else
      match pySplit h with
      | [scheme, password] =>
        if scheme ≠ "Bearer" then
          some ⟨401, errBody "Invalid Authorization header"⟩
        else if password ≠ adminPassword then
          some ⟨401, errBody "Unauthorized"⟩
        else
          none
      | _ => some ⟨401, errBody "Invalid Authorization header"⟩

/-- The `@require_auth` decorator: run the guard, and only on `none`
invoke the wrapped handler. -/
def guardedHandler (adminPassword : String) (authHeader : Option String)
    (handler : Store → Response × Store) (st : Store) : Response × Store :=
  match require_auth adminPassword authHeader with
  | some r => (r, st)
  | none => handler st

/-- Handler `health_check` (app.py:65-68). -/
def health_check : Response :=
  ⟨200, .obj [("status", .str "ok"),
              ("message", .str "Portfolio API is running")]⟩

/-- Handler `get_projects` (app.py:75-82): `select("*")` on `projetos`. -/
def get_projects (st : Store) : Response :=
  ⟨200, .rows st.projetos⟩

/-- Required fields of a project (app.py:93). -/
def projectRequiredFields : List String := ["titulo", "descricao", "tecnologias"]

/-- Required fields of a certificate (app.py:173). -/
def certificateRequiredFields : List String :=
  ["nome", "instituicao", "data_conclusao"]

/-- Body of `create_project` / `create_certificate` after the auth guard
(app.py:89-103 and 169-183): validate the required fields, stamp
`created_at` with the current time `now`, insert; the inserted row gets
the storage-assigned id `freshId` and is echoed back as `response.data`.
A `badJson` body makes `field in data` raise, landing in the 500 branch. -/
def createRecord (required : List String) (body : ReqBody) (now : String)
    (freshId : Nat) (table : List DBRow) : Response × List DBRow :=
  match body with
  | .badJson =>
    (⟨500, errBody "argument of type NoneType is not iterable"⟩, table)
  | .jsonObj data =>
    if required.all (fun f => hasField data f) then
      let stamped := setField data "created_at" now
      let newRow : DBRow := ⟨freshId, stamped⟩
      (⟨201, .rows [newRow]⟩, table ++ [newRow])
    else
      (⟨400, errBody "Missing required fields"⟩, table)

/-- Handler `create_project` (app.py:85-103), guard included. -/
def create_project (adminPassword : String) (authHeader : Option String)
    (body : ReqBody) (now : String) (freshId : Nat) (st : Store) :
    Response × Store :=
  guardedHandler adminPassword authHeader
    (fun st =>
      let p := createRecord projectRequiredFields body now freshId st.projetos
      (p.1, { st with projetos := p.2 }))
    st

/-- Handler `create_certificate` (app.py:165-183), guard included. -/
def create_certificate (adminPassword : String) (authHeader : Option String)
    (body : ReqBody) (now : String) (freshId : Nat) (st : Store) :
    Response × Store :=
  guardedHandler adminPassword authHeader
    (fun st =>
      let p := createRecord certificateRequiredFields body now freshId
        st.certificados
      (p.1, { st with certificados := p.2 }))
    st

/-- Supabase `select("*").eq("id", i)` followed by the not-found check
(app.py:106-115 / 186-195): the first row with that id, or 404. -/
def getRecord (notFoundMsg : String) (i : Nat) (table : List DBRow) :
    Response :=
  match table.find? (fun r => r.id == i) with
  | some r => ⟨200, .row r⟩
  | none => ⟨404, errBody notFoundMsg⟩

/-- Handler `get_project` (app.py:106-115). -/
def get_project (i : Nat) (st : Store) : Response :=
  getRecord "Project not found" i st.projetos

/-- Handler `get_certificate` (app.py:186-195). -/
def get_certificate (i : Nat) (st : Store) : Response :=
  getRecord "Certificate not found" i st.certificados

/-- Body of `update_project` / `update_certificate` after the guard
(app.py:118-131 / 198-211): stamp `updated_at`, `update(data).eq("id", i)`
merges the payload's fields into every row with that id; `response.data`
is empty (→ 404) when no row matched, otherwise the first updated row is
returned.  A `badJson` body makes `data["updated_at"] = ...` raise → 500.
`mergeRow` is the per-row effect of `update(data).eq("id", i)`: overwrite
the matching row's columns with the stamped payload's fields. -/
def mergeRow (stamped : List (String × String)) (i : Nat) (r : DBRow) :
    DBRow :=
  if r.id == i then
    ⟨r.id, stamped.foldl (fun fs p => setField fs p.1 p.2) r.fields⟩
  else r

def updateRecord (notFoundMsg : String) (body : ReqBody) (now : String)
    (i : Nat) (table : List DBRow) : Response × List DBRow :=
  match body with
  | .badJson =>
    (⟨500, errBody "NoneType object does not support item assignment"⟩,
     table)
  | .jsonObj data =>
    let updated := table.map (mergeRow (setField data "updated_at" now) i)
    match updated.find? (fun r => r.id == i) with
    | some r => (⟨200, .row r⟩, updated)
    | none => (⟨404, errBody notFoundMsg⟩, updated)

/-- Handler `update_project` (app.py:118-131), guard included. -/
def update_project (adminPassword : String) (authHeader : Option String)
    (i : Nat) (body : ReqBody) (now : String) (st : Store) :
    Response × Store :=
  guardedHandler adminPassword authHeader
    (fun st =>
      let p := updateRecord "Project not found" body now i st.projetos
      (p.1, { st with projetos := p.2 }))
    st

/-- Handler `update_certificate` (app.py:198-211), guard included. -/
def update_certificate (adminPassword : String) (authHeader : Option String)
    (i : Nat) (body : ReqBody) (now : String) (st : Store) :
    Response × Store :=
  guardedHandler adminPassword authHeader
    (fun st =>
      let p := updateRecord "Certificate not found" body now i st.certificados
      (p.1, { st with certificados := p.2 }))
    st

/-- Handler `delete_project` (app.py:134-142), guard included:
`delete().eq("id", i)` then an unconditional 200 confirmation. -/
def delete_project (adminPassword : String) (authHeader : Option String)
    (i : Nat) (st : Store) : Response × Store :=
  guardedHandler adminPassword authHeader
    (fun st =>
      (⟨200, .obj [("message", .str "Project deleted successfully")]⟩,
       { st with projetos := st.projetos.filter fun r => r.id ≠ i }))
    st

/-- Handler `delete_certificate` (app.py:214-222), guard included. -/
def delete_certificate (adminPassword : String) (authHeader : Option String)
    (i : Nat) (st : Store) : Response × Store :=
  guardedHandler adminPassword authHeader
    (fun st =>
      (⟨200, .obj [("message", .str "Certificate deleted successfully")]⟩,
       { st with certificados := st.certificados.filter fun r => r.id ≠ i }))
    st

/-- Handler `get_certificates` (app.py:149-162): `request.args.get("origem")`
yields `none` for an absent parameter; Python's `if origem:` also treats
the empty string as absent.  A non-empty value filters with
`.eq("origem", origem)`. -/
def get_certificates (origem : Option String) (st : Store) : Response :=
  match origem with
  | some v =>
    if v ≠ "" then
      ⟨200, .rows (st.certificados.filter fun r => getField r "origem" == some v)⟩
    else
      ⟨200, .rows st.certificados⟩
  | none => ⟨200, .rows st.certificados⟩

/-- Handler `get_visits` (app.py:229-239): `response.data[0]["total"]` when any
row exists, else `{"total": 0}`. -/
def get_visits (st : Store) : Response :=
  match st.visitas with
  | r :: _ => ⟨200, .obj [("total", .num r.total)]⟩
  | [] => ⟨200, .obj [("total", .num 0)]⟩

/-- Handler `increment_visits` (app.py:242-260): read all rows of `visitas`; when
one exists, `update({"total": total+1}).eq("id", ...)` on the first row's
id and answer 200; otherwise `insert({"total": 1})` (the new row receives
the storage-assigned id `freshId`) and answer 201.  Unguarded: there is no
`@require_auth` on this route. -/
def increment_visits (freshId : Nat) (st : Store) : Response × Store :=
  match st.visitas with
  | r :: rest =>
    let newTotal := r.total + 1
    let updated := (r :: rest).map fun row =>
      if row.id == r.id then ⟨row.id, newTotal⟩ else row
    (⟨200, .obj [("total", .num newTotal)]⟩, { st with visitas := updated })
  | [] =>
    (⟨201, .obj [("total", .num 1)]⟩,
     { st with visitas := [⟨freshId, 1⟩] })

/-- The stored visit total as the API reads it (`get_visits`): the first
row's counter, zero when the table is empty. -/
def storedTotal (st : Store) : Nat :=
  match st.visitas with
  | r :: _ => r.total
  | [] => 0

/-- The `POST /` branch of `index` (app.py:291-306): form login.
`request.form.get("password")` yields `none` for an absent field, and
`if password and password == ADMIN_PASSWORD` also treats the empty string
as absent.  On success the session flag `logged_in` is set and the
browser is redirected to the admin dashboard; on failure the login page
is re-rendered with an error when `templates/login.html` exists and
renders (`loginTemplateExists`, `renderOk`), else a 401 JSON error.
Returns the response and the new session flag. -/
def index_post (adminPassword : String) (formPassword : Option String)
    (loginTemplateExists renderOk sessLoggedIn : Bool) : Response × Bool :=
  let passwordOk :=
    match formPassword with
    | some p => p ≠ "" && p == adminPassword
    | none => false
  if passwordOk then
    (⟨302, .redirect "admin_dashboard"⟩, true)
  else if loginTemplateExists && renderOk then
    (⟨200, .page "login.html" (some "Senha inválida")⟩, sessLoggedIn)
  else
    (⟨401, errBody "Senha inválida"⟩, sessLoggedIn)

/-- The `GET /` branch of `index` (app.py:308-320). -/
def index_get (loginTemplateExists renderOk : Bool) : Response :=
  if loginTemplateExists && renderOk then
    ⟨200, .page "login.html" none⟩
  else
    ⟨200, .obj [("message", .str "Portfolio API — use /health or /api/projetos"),
                ("endpoints", .strList ["/health", "/api/projetos",
                                        "/api/certificados", "/api/visitas"])]⟩

/-- Handler `admin_dashboard` (app.py:323-336). -/
def admin_dashboard (dashTemplateExists renderOk sessLoggedIn : Bool) :
    Response :=
  if sessLoggedIn then
    if dashTemplateExists && renderOk then
      ⟨200, .page "admin_dashboard.html" none⟩
    else
      ⟨200, .obj [("message", .str "Admin dashboard")]⟩
  else
    ⟨302, .redirect "index"⟩

/-- Handler `admin_logout` (app.py:339-343): clear the session flag, redirect. -/
def admin_logout : Response × Bool :=
  (⟨302, .redirect "index"⟩, false)

/-- Handler `not_found` (app.py:267-270), the handler for unknown routes. -/
def not_found : Response :=
  ⟨404, errBody "Endpoint not found"⟩

/-- A dispatchable request to the API: the route matched by Flask plus
the data specific to that route. -/
inductive Route where
  | health
  | indexGet
  | indexPost (formPassword : Option String)
  | getProjects
  | createProject (body : ReqBody)
  | getProject (i : Nat)
  | updateProject (i : Nat) (body : ReqBody)
  | deleteProject (i : Nat)
  | getCertificates (origem : Option String)
  | createCertificate (body : ReqBody)
  | getCertificate (i : Nat)
  | updateCertificate (i : Nat) (body : ReqBody)
  | deleteCertificate (i : Nat)
  | getVisits
  | incrementVisits
  | adminDashboard
  | adminLogout
  | unknown
deriving DecidableEq, Repr

/-- Per-request ambient data: configuration (`ADMIN_PASSWORD`), request
headers, the wall clock, the id the storage service would assign to an
inserted row, template availability, and the incoming session flag. -/
structure Ctx where
  adminPassword : String
  authHeader : Option String
  now : String
  freshId : Nat
  loginTemplateExists : Bool
  dashTemplateExists : Bool
  renderOk : Bool
  sessLoggedIn : Bool
deriving DecidableEq, Repr

/-- The full request → response map of app.py: Flask's routing plus every
handler, returning the response, the next store, and the next session
flag. -/
def handleRequest (ctx : Ctx) (route : Route) (st : Store) :
    Response × Store × Bool :=
  match route with
  | .health => (health_check, st, ctx.sessLoggedIn)
  | .indexGet =>
    (index_get ctx.loginTemplateExists ctx.renderOk, st, ctx.sessLoggedIn)
  | .indexPost p =>
    let q := index_post ctx.adminPassword p ctx.loginTemplateExists
      ctx.renderOk ctx.sessLoggedIn
    (q.1, st, q.2)
  | .getProjects => (get_projects st, st, ctx.sessLoggedIn)
  | .createProject body =>
    let q := create_project ctx.adminPassword ctx.authHeader body ctx.now
      ctx.freshId st
    (q.1, q.2, ctx.sessLoggedIn)
  | .getProject i => (get_project i st, st, ctx.sessLoggedIn)
  | .updateProject i body =>
    let q := update_project ctx.adminPassword ctx.authHeader i body ctx.now st
    (q.1, q.2, ctx.sessLoggedIn)
  | .deleteProject i =>
    let q := delete_project ctx.adminPassword ctx.authHeader i st
    (q.1, q.2, ctx.sessLoggedIn)
  | .getCertificates origem =>
    (get_certificates origem st, st, ctx.sessLoggedIn)
  | .createCertificate body =>
    let q := create_certificate ctx.adminPassword ctx.authHeader body ctx.now
      ctx.freshId st
    (q.1, q.2, ctx.sessLoggedIn)
  | .getCertificate i => (get_certificate i st, st, ctx.sessLoggedIn)
  | .updateCertificate i body =>
    let q := update_certificate ctx.adminPassword ctx.authHeader i body
      ctx.now st
    (q.1, q.2, ctx.sessLoggedIn)
  | .deleteCertificate i =>
    let q := delete_certificate ctx.adminPassword ctx.authHeader i st
    (q.1, q.2, ctx.sessLoggedIn)
  | .getVisits => (get_visits st, st, ctx.sessLoggedIn)
  | .incrementVisits =>
    let q := increment_visits ctx.freshId st
    (q.1, q.2, ctx.sessLoggedIn)
  | .adminDashboard =>
    (admin_dashboard ctx.dashTemplateExists ctx.renderOk ctx.sessLoggedIn,
     st, ctx.sessLoggedIn)
  | .adminLogout => (admin_logout.1, st, admin_logout.2)
  | .unknown => (not_found, st, ctx.sessLoggedIn)

/-- The routes that write to the store and are wrapped by `@require_auth`
in app.py (`POST /api/visitas` writes but is not wrapped). -/
def isGuardedWrite : Route → Bool
  | .createProject _ => true
  | .updateProject _ _ => true
  | .deleteProject _ => true
  | .createCertificate _ => true
  | .updateCertificate _ _ => true
  | .deleteCertificate _ => true
  | _ => false

/-! ## Theorems -/

/-- Characterization: `require_auth` lets the request through exactly when the header splits
into `["Bearer", password]` with the configured password. -/
theorem require_auth_none_iff (pw : String) (hdr : Option String) :
    require_auth pw hdr = none ↔
      ∃ h, hdr = some h ∧ pySplit h = ["Bearer", pw] := by
  cases hdr with
  | none => simp [require_auth]
  | some h =>
    simp only [require_auth, Option.some.injEq]
    by_cases he : h = ""
    · subst he
      have h0 : pySplit "" = [] := rfl
      simp [h0]
    · rw [if_neg he]
      rcases hps : pySplit h with _ | ⟨a, _ | ⟨b, _ | ⟨c, rest⟩⟩⟩
      · simp [hps]
      · simp [hps]
      · by_cases ha : a = "Bearer"
        · subst ha
          by_cases hb : b = pw
          · subst hb
            simp [hps]
          · simp [hps, hb]
        · simp [hps, ha]
      · simp [hps]

/-- Every rejection `require_auth` produces is a 401 with a JSON error
body. -/
theorem require_auth_some_shape (pw : String) (hdr : Option String)
    (r : Response) (hr : require_auth pw hdr = some r) :
    r.status = 401 ∧ ∃ msg, r.body = errBody msg := by
  unfold require_auth at hr
  repeat' split at hr
  all_goals first
    | (cases hr; exact ⟨rfl, _, rfl⟩)
    | cases hr

/-- C1. For every request to an endpoint wrapped by the `require_auth`
guard, the guard returns status 401 (with a JSON error body) exactly when
the Authorization header is absent, or the header does not split into
exactly two space-separated tokens with the first token literally
"Bearer", or the second token differs from the configured admin secret;
when the second token equals the secret, the wrapped handler is
invoked. -/
theorem C1_require_auth_guard (adminPassword : String)
    (authHeader : Option String) (handler : Store → Response × Store)
    (st : Store) :
    ((require_auth adminPassword authHeader).isSome ↔
      ¬ ∃ h, authHeader = some h ∧ pySplit h = ["Bearer", adminPassword])
    ∧ (∀ r, require_auth adminPassword authHeader = some r →
        r.status = 401 ∧ ∃ msg, r.body = errBody msg)
    ∧ (∀ h, authHeader = some h → pySplit h = ["Bearer", adminPassword] →
        guardedHandler adminPassword authHeader handler st = handler st) := by
  refine ⟨?_, ?_, ?_⟩
  · rw [Option.isSome_iff_ne_none, ne_eq]
    exact not_congr (require_auth_none_iff _ _)
  · intro r hr
    exact require_auth_some_shape _ _ _ hr
  · intro h hh hsp
    have hnone : require_auth adminPassword authHeader = none :=
      (require_auth_none_iff _ _).mpr ⟨h, hh, hsp⟩
    simp [guardedHandler, hnone]

/-- Witness for C1 at a concrete request: `Bearer admin123` against the
secret `admin123` invokes the wrapped handler. -/
theorem C1_witness :
    guardedHandler "admin123" (some "Bearer admin123")
        (fun st => (health_check, st)) ⟨[], [], []⟩ =
      (health_check, ⟨[], [], []⟩) :=
  (C1_require_auth_guard "admin123" (some "Bearer admin123")
      (fun st => (health_check, st)) ⟨[], [], []⟩).2.2
    "Bearer admin123" rfl (by decide)

/-- C4. POST /api/visitas: with an existing counter row of total N the
handler writes N+1 back to that row (every row with its id) and answers
200 with `{"total": N+1}`; with no row it inserts `{"total": 1}` and
answers 201 with `{"total": 1}`. -/
theorem C4_increment_visits_spec (fid : Nat) (st : Store) :
    (st.visitas = [] →
      increment_visits fid st =
        (⟨201, .obj [("total", .num 1)]⟩,
         { st with visitas := [⟨fid, 1⟩] })) ∧
    (∀ r rest, st.visitas = r :: rest →
      (increment_visits fid st).1 =
        ⟨200, .obj [("total", .num (r.total + 1))]⟩ ∧
      (increment_visits fid st).2.visitas =
        (r :: rest).map fun row =>
          if row.id == r.id then ⟨row.id, r.total + 1⟩ else row) := by
  constructor
  · intro h
    simp [increment_visits, h]
  · intro r rest h
    simp [increment_visits, h]

/-- Witness for C4 at a concrete store with total 41. -/
theorem C4_witness :
    (increment_visits 7 ⟨[], [], [⟨3, 41⟩]⟩).1 =
      ⟨200, .obj [("total", .num 42)]⟩ :=
  ((C4_increment_visits_spec 7 ⟨[], [], [⟨3, 41⟩]⟩).2 ⟨3, 41⟩ [] rfl).1

/-- C6. Two sequential POST /api/visitas requests raise the stored total
by exactly 2, from any starting store. -/
theorem C6_two_increments (f1 f2 : Nat) (st : Store) :
    storedTotal (increment_visits f2 (increment_visits f1 st).2).2 =
      storedTotal st + 2 := by
  rcases st with ⟨p, c, v⟩
  rcases v with _ | ⟨r, rest⟩
  · simp [increment_visits, storedTotal]
  · simp [increment_visits, storedTotal]

/-- C7. GET /api/certificados with a non-empty `origem` value answers 200
with an array whose every element has that `origem` field. -/
theorem C7_origem_filter (v : String) (st : Store) (hv : v ≠ "") :
    (get_certificates (some v) st).status = 200 ∧
    ∃ l, (get_certificates (some v) st).body = .rows l ∧
      ∀ r ∈ l, getField r "origem" = some v := by
  rw [get_certificates, if_pos hv]
  refine ⟨rfl, ?_⟩
  refine ⟨_, rfl, ?_⟩
  intro r hr
  have hmem := List.mem_filter.mp hr
  simpa using hmem.2

/-- Witness for C7 at a concrete store holding one FIAP and one other
certificate. -/
theorem C7_witness :
    (get_certificates (some "FIAP")
        ⟨[], [⟨1, [("origem", "FIAP")]⟩, ⟨2, [("origem", "Alura")]⟩],
         []⟩).status = 200 :=
  (C7_origem_filter "FIAP"
      ⟨[], [⟨1, [("origem", "FIAP")]⟩, ⟨2, [("origem", "Alura")]⟩], []⟩
      (by decide)).1

/-- C2 as stated is false: POST /api/visitas writes to the store, yet with
no Authorization header it succeeds (201 on an empty store), not 401. -/
theorem C2_counterexample :
    (handleRequest ⟨"admin123", none, "2024-01-01T00:00:00", 1,
        true, true, true, false⟩ .incrementVisits ⟨[], [], []⟩).1.status
      = 201 ∧
    ¬ (handleRequest ⟨"admin123", none, "2024-01-01T00:00:00", 1,
        true, true, true, false⟩ .incrementVisits ⟨[], [], []⟩).1.status
      = 401 := by
  constructor
  · rfl
  · decide

/-- C2 amended: every `require_auth`-guarded mutating endpoint (POST/PUT/
DELETE on /api/projetos and /api/certificados) answers 401 when the
request carries no Authorization header. -/
theorem C2_guarded_write_missing_header (ctx : Ctx) (route : Route)
    (st : Store) (hw : isGuardedWrite route = true)
    (hh : ctx.authHeader = none) :
    (handleRequest ctx route st).1.status = 401 := by
  cases route <;>
    simp_all [isGuardedWrite, handleRequest, create_project, update_project,
      delete_project, create_certificate, update_certificate,
      delete_certificate, guardedHandler, require_auth]

/-- Witness for the amended C2: DELETE /api/projetos/5 with no header is
rejected with 401. -/
theorem C2_witness :
    (handleRequest ⟨"admin123", none, "2024-01-01T00:00:00", 1,
        true, true, true, false⟩ (.deleteProject 5)
        ⟨[⟨5, [("titulo", "x")]⟩], [], []⟩).1.status = 401 :=
  C2_guarded_write_missing_header
    ⟨"admin123", none, "2024-01-01T00:00:00", 1, true, true, true, false⟩
    (.deleteProject 5) ⟨[⟨5, [("titulo", "x")]⟩], [], []⟩ rfl rfl

/-- C3. An authenticated create request whose JSON object payload lacks a
required field is answered 400 and the store is unchanged. -/
theorem C3_create_missing_field (pw : String) (hdr : Option String)
    (data : List (String × String)) (now : String) (fid : Nat) (st : Store)
    (hauth : require_auth pw hdr = none) :
    ((∃ f ∈ projectRequiredFields, hasField data f = false) →
      create_project pw hdr (.jsonObj data) now fid st =
        (⟨400, errBody "Missing required fields"⟩, st)) ∧
    ((∃ f ∈ certificateRequiredFields, hasField data f = false) →
      create_certificate pw hdr (.jsonObj data) now fid st =
        (⟨400, errBody "Missing required fields"⟩, st)) := by
  constructor
  · rintro ⟨f, hf, hff⟩
    have hall : projectRequiredFields.all (fun f => hasField data f)
        = false := by
      rw [List.all_eq_false]
      exact ⟨f, hf, by simp [hff]⟩
    simp [create_project, guardedHandler, hauth, createRecord, hall]
  · rintro ⟨f, hf, hff⟩
    have hall : certificateRequiredFields.all (fun f => hasField data f)
        = false := by
      rw [List.all_eq_false]
      exact ⟨f, hf, by simp [hff]⟩
    simp [create_certificate, guardedHandler, hauth, createRecord, hall]

/-- Witness for C3: an authenticated POST /api/projetos with only
`titulo` is answered 400 and the (empty) store stays empty. -/
theorem C3_witness :
    create_project "admin123" (some "Bearer admin123")
        (.jsonObj [("titulo", "x")]) "2024-01-01T00:00:00" 1 ⟨[], [], []⟩ =
      (⟨400, errBody "Missing required fields"⟩, ⟨[], [], []⟩) :=
  (C3_create_missing_field "admin123" (some "Bearer admin123")
      [("titulo", "x")] "2024-01-01T00:00:00" 1 ⟨[], [], []⟩ (by decide)).1
    ⟨"descricao", by decide, by decide⟩

/-- C5 as stated is false: when `templates/login.html` exists, a wrong
form password is answered with the re-rendered login page at status 200 —
a success status, not an error response. -/
theorem C5_counterexample :
    (index_post "admin123" (some "wrong") true true false).1.status = 200 ∧
    ¬ 400 ≤ (index_post "admin123" (some "wrong") true true false).1.status
      := by
  constructor
  · rfl
  · decide

/-- C5 amended: a present form password differing from the admin secret
never marks the session as logged in, and the response signals the
invalid password — as the re-rendered login page (status 200) when the
login template exists and renders, else as a 401 JSON error. -/
theorem C5_wrong_password (adminPw p : String) (templ rok sess : Bool)
    (hne : p ≠ adminPw) :
    ((index_post adminPw (some p) templ rok sess).2 = sess) ∧
    ((templ = true ∧ rok = true ∧
      (index_post adminPw (some p) templ rok sess).1 =
        ⟨200, .page "login.html" (some "Senha inválida")⟩) ∨
     (¬ (templ = true ∧ rok = true) ∧
      (index_post adminPw (some p) templ rok sess).1 =
        ⟨401, errBody "Senha inválida"⟩)) := by
  cases templ <;> cases rok <;> simp [index_post, hne]

/-- Witness for the amended C5: wrong password with no login template is
a 401 JSON error, session flag untouched. -/
theorem C5_witness :
    ((index_post "admin123" (some "wrong") false false false).2 = false) ∧
    ((false = true ∧ false = true ∧
      (index_post "admin123" (some "wrong") false false false).1 =
        ⟨200, .page "login.html" (some "Senha inválida")⟩) ∨
     (¬ (false = true ∧ false = true) ∧
      (index_post "admin123" (some "wrong") false false false).1 =
        ⟨401, errBody "Senha inválida"⟩)) :=
  C5_wrong_password "admin123" "wrong" false false false (by decide)

/-- If no row of `table` has id `i`, mapping a row-wise id-preserving
function leaves the lookup by id empty. -/
theorem find_id_map_none (table : List DBRow) (f : DBRow → DBRow)
    (hf : ∀ r, (f r).id = r.id) (i : Nat)
    (h : (table.find? fun r => r.id == i) = none) :
    ((table.map f).find? fun r => r.id == i) = none := by
  rw [List.find?_eq_none] at h ⊢
  intro x hx
  rcases List.mem_map.mp hx with ⟨y, hy, rfl⟩
  simpa [hf y] using h y hy

/-- Lemma: `mergeRow` never changes the id of a row. -/
theorem mergeRow_id (stamped : List (String × String)) (i : Nat)
    (r : DBRow) : (mergeRow stamped i r).id = r.id := by
  unfold mergeRow
  split <;> rfl

/-- C9. Authenticated DELETE on a project or certificate id always answers
200 with a confirmation message, whether or not the id exists — while GET
and PUT answer 404 for an absent id. -/
theorem C9_delete_always_200 (pw : String) (hdr : Option String) (i : Nat)
    (st : Store) (hauth : require_auth pw hdr = none) :
    (delete_project pw hdr i st).1 =
      ⟨200, .obj [("message", .str "Project deleted successfully")]⟩ ∧
    (delete_certificate pw hdr i st).1 =
      ⟨200, .obj [("message", .str "Certificate deleted successfully")]⟩ ∧
    ((st.projetos.find? fun r => r.id == i) = none →
      (get_project i st).status = 404 ∧
      ∀ data now,
        (update_project pw hdr i (.jsonObj data) now st).1.status = 404) ∧
    ((st.certificados.find? fun r => r.id == i) = none →
      (get_certificate i st).status = 404 ∧
      ∀ data now,
        (update_certificate pw hdr i (.jsonObj data) now st).1.status
          = 404) := by
  refine ⟨?_, ?_, ?_, ?_⟩
  · simp [delete_project, guardedHandler, hauth]
  · simp [delete_certificate, guardedHandler, hauth]
  · intro h
    constructor
    · simp [get_project, getRecord, h]
    · intro data now
      have hupd := find_id_map_none st.projetos
        (mergeRow (setField data "updated_at" now) i)
        (mergeRow_id _ _) i h
      simp [update_project, guardedHandler, hauth, updateRecord, hupd]
  · intro h
    constructor
    · simp [get_certificate, getRecord, h]
    · intro data now
      have hupd := find_id_map_none st.certificados
        (mergeRow (setField data "updated_at" now) i)
        (mergeRow_id _ _) i h
      simp [update_certificate, guardedHandler, hauth, updateRecord, hupd]

/-- Witness for C9: deleting the absent project id 9 from an empty store
still answers 200. -/
theorem C9_witness :
    (delete_project "admin123" (some "Bearer admin123") 9
        ⟨[], [], []⟩).1 =
      ⟨200, .obj [("message", .str "Project deleted successfully")]⟩ :=
  (C9_delete_always_200 "admin123" (some "Bearer admin123") 9 ⟨[], [], []⟩
    (by decide)).1

/-- C10. An authenticated create request whose body is absent or not a
JSON object — so that the required-field membership check raises — is
answered by the generic 500 branch, not the 400 validation error, and the
store is unchanged. -/
theorem C10_bad_body_500 (pw : String) (hdr : Option String) (now : String)
    (fid : Nat) (st : Store) (hauth : require_auth pw hdr = none) :
    (create_project pw hdr .badJson now fid st).1.status = 500 ∧
    (create_project pw hdr .badJson now fid st).1.status ≠ 400 ∧
    (create_project pw hdr .badJson now fid st).2 = st ∧
    (create_certificate pw hdr .badJson now fid st).1.status = 500 ∧
    (create_certificate pw hdr .badJson now fid st).1.status ≠ 400 ∧
    (create_certificate pw hdr .badJson now fid st).2 = st := by
  refine ⟨?_, ?_, ?_, ?_, ?_, ?_⟩ <;>
    simp [create_project, create_certificate, guardedHandler, hauth,
      createRecord]

/-- Witness for C10: an authenticated POST /api/projetos with a broken
body is answered 500. -/
theorem C10_witness :
    (create_project "admin123" (some "Bearer admin123") .badJson
        "2024-01-01T00:00:00" 1 ⟨[], [], []⟩).1.status = 500 :=
  (C10_bad_body_500 "admin123" (some "Bearer admin123")
    "2024-01-01T00:00:00" 1 ⟨[], [], []⟩ (by decide)).1

/-- The error-envelope invariant of §7: a response whose status is one of
the error statuses carries a JSON object with a string `error` field. -/
def errOk (r : Response) : Prop :=
  r.status = 400 ∨ r.status = 401 ∨ r.status = 404 ∨ r.status = 500 →
    ∃ msg, r.body = errBody msg

/-- A success or redirect status satisfies the envelope invariant
vacuously. -/
theorem errOk_of_status {r : Response}
    (h : r.status = 200 ∨ r.status = 201 ∨ r.status = 302) : errOk r := by
  intro he
  rcases h with h | h | h <;> rw [h] at he <;> simp at he

/-- The guard preserves the envelope invariant: its own rejections are
401 JSON errors. -/
theorem errOk_guarded (pw : String) (hdr : Option String)
    (handler : Store → Response × Store) (st : Store)
    (hh : errOk (handler st).1) :
    errOk (guardedHandler pw hdr handler st).1 := by
  unfold guardedHandler
  cases hra : require_auth pw hdr with
  | none => exact hh
  | some r =>
    rcases require_auth_some_shape _ _ _ hra with ⟨_, m, hm⟩
    exact fun _ => ⟨m, hm⟩

theorem errOk_createRecord (required : List String) (body : ReqBody)
    (now : String) (fid : Nat) (table : List DBRow) :
    errOk (createRecord required body now fid table).1 := by
  cases body with
  | badJson => exact fun _ => ⟨_, rfl⟩
  | jsonObj data =>
    simp only [createRecord]
    split
    · intro h
      simp at h
    · exact fun _ => ⟨_, rfl⟩

theorem errOk_updateRecord (msg : String) (body : ReqBody) (now : String)
    (i : Nat) (table : List DBRow) :
    errOk (updateRecord msg body now i table).1 := by
  cases body with
  | badJson => exact fun _ => ⟨_, rfl⟩
  | jsonObj data =>
    simp only [updateRecord]
    split
    · intro h
      simp at h
    · exact fun _ => ⟨_, rfl⟩

theorem errOk_getRecord (msg : String) (i : Nat) (table : List DBRow) :
    errOk (getRecord msg i table) := by
  unfold getRecord
  split
  · intro h
    simp at h
  · exact fun _ => ⟨_, rfl⟩

theorem errOk_index_post (pw : String) (p : Option String)
    (t rok sess : Bool) : errOk (index_post pw p t rok sess).1 := by
  unfold index_post
  dsimp only
  repeat' split
  all_goals first
    | exact errOk_of_status (Or.inr (Or.inr rfl))
    | exact errOk_of_status (Or.inl rfl)
    | exact fun _ => ⟨_, rfl⟩

theorem errOk_index_get (t rok : Bool) : errOk (index_get t rok) := by
  unfold index_get
  split <;> exact errOk_of_status (Or.inl rfl)

theorem errOk_admin_dashboard (t rok sess : Bool) :
    errOk (admin_dashboard t rok sess) := by
  unfold admin_dashboard
  split
  · split <;> exact errOk_of_status (Or.inl rfl)
  · exact errOk_of_status (Or.inr (Or.inr rfl))

theorem errOk_get_visits (st : Store) : errOk (get_visits st) := by
  rcases st with ⟨p, c, v⟩
  cases v <;> exact errOk_of_status (Or.inl rfl)

theorem errOk_increment_visits (fid : Nat) (st : Store) :
    errOk (increment_visits fid st).1 := by
  rcases st with ⟨p, c, v⟩
  cases v with
  | nil => exact errOk_of_status (Or.inr (Or.inl rfl))
  | cons r rest => exact errOk_of_status (Or.inl rfl)

theorem errOk_get_certificates (origem : Option String) (st : Store) :
    errOk (get_certificates origem st) := by
  unfold get_certificates
  rcases origem with _ | v
  · exact errOk_of_status (Or.inl rfl)
  · dsimp only
    split <;> exact errOk_of_status (Or.inl rfl)

/-- C8. Every response of the API with an error status (400, 401, 404 or
500) carries a JSON object with a string `error` field — never an empty
body. -/
theorem C8_error_envelope (ctx : Ctx) (route : Route) (st : Store)
    (he : (handleRequest ctx route st).1.status = 400 ∨
          (handleRequest ctx route st).1.status = 401 ∨
          (handleRequest ctx route st).1.status = 404 ∨
          (handleRequest ctx route st).1.status = 500) :
    ∃ msg, (handleRequest ctx route st).1.body = errBody msg := by
  revert he
  show errOk (handleRequest ctx route st).1
  cases route with
  | health => exact errOk_of_status (Or.inl rfl)
  | indexGet => exact errOk_index_get _ _
  | indexPost p => exact errOk_index_post _ _ _ _ _
  | getProjects => exact errOk_of_status (Or.inl rfl)
  | createProject body =>
    exact errOk_guarded _ _ _ _ (errOk_createRecord _ _ _ _ _)
  | getProject i => exact errOk_getRecord _ _ _
  | updateProject i body =>
    exact errOk_guarded _ _ _ _ (errOk_updateRecord _ _ _ _ _)
  | deleteProject i =>
    exact errOk_guarded _ _ _ _ (errOk_of_status (Or.inl rfl))
  | getCertificates origem => exact errOk_get_certificates _ _
  | createCertificate body =>
    exact errOk_guarded _ _ _ _ (errOk_createRecord _ _ _ _ _)
  | getCertificate i => exact errOk_getRecord _ _ _
  | updateCertificate i body =>
    exact errOk_guarded _ _ _ _ (errOk_updateRecord _ _ _ _ _)
  | deleteCertificate i =>
    exact errOk_guarded _ _ _ _ (errOk_of_status (Or.inl rfl))
  | getVisits => exact errOk_get_visits _
  | incrementVisits => exact errOk_increment_visits _ _
  | adminDashboard => exact errOk_admin_dashboard _ _ _
  | adminLogout => exact errOk_of_status (Or.inr (Or.inr rfl))
  | unknown => exact fun _ => ⟨_, rfl⟩

/-- Witness for C8: the 404 for an unknown route carries an `error`
field. -/
theorem C8_witness :
    ∃ msg,
      (handleRequest ⟨"admin123", none, "2024-01-01T00:00:00", 1,
          true, true, true, false⟩ .unknown ⟨[], [], []⟩).1.body =
        errBody msg :=
  C8_error_envelope
    ⟨"admin123", none, "2024-01-01T00:00:00", 1, true, true, true, false⟩
    .unknown ⟨[], [], []⟩ (Or.inr (Or.inr (Or.inl rfl)))
